import Mathlib

/-!
Verification development for the GrandaIncontri repository.

The embedding translates the Python source files into Lean:
the dynamic values that may sit in an `is_active` column, the typed
`profiles` and `messages` rows, the DAO operations of
`profiles_dao.py` (the module imported by `app.py`), and the route
logic of `app.py` (published-set derivation, listing filters, the
profile lifecycle endpoint, the contact-message flow).
-/

namespace Granda

/-- Pythons `str.strip()`: whitespace removed from both ends. -/
def py_strip_str (s : String) : String :=
  ⟨(((s.data.dropWhile Char.isWhitespace).reverse).dropWhile Char.isWhitespace).reverse⟩

/-- Pythons `str.lower()` (on the ASCII range the sources use). -/
def py_lower (s : String) : String :=
  ⟨s.data.map Char.toLower⟩

/-- A dynamic value as it may come back from a database row: NULL,
a boolean, an integer, or a text value.  Used for the `is_active`
column whose truthiness `app.py` inspects dynamically. -/
inductive PyVal : Type
  | vnone : PyVal
  | vbool (b : Bool) : PyVal
  | vint (n : Int) : PyVal
  | vstr (s : String) : PyVal
deriving DecidableEq, Repr

/-- Embeds the inner `is_published` helper of
`get_published_profiles_with_status` in `app.py`:
None is published; booleans and integers are published when truthy;
any other value is published unless its trimmed lowercased string
form is one of "0", "false", "no", "n". -/
def is_published : PyVal → Bool
  | .vnone => true
  | .vbool b => b
  | .vint n => decide (n ≠ 0)
  | .vstr s => decide (py_lower (py_strip_str s) ∉ (["0", "false", "no", "n"] : List String))

/-- A raw row as seen by `get_published_profiles_with_status`: the
`is_active` column may be absent (`none`) or hold any dynamic value. -/
structure PRow where
  id : Nat
  is_active : Option PyVal
deriving DecidableEq, Repr

/-- Embeds `get_published_profiles_with_status` of `app.py`: a missing
`is_active` column is treated as None, and a row is kept exactly when
`is_published` accepts its value.  The random, non-persisted
`is_online` display flag added there is cosmetic and not modelled. -/
def get_published_profiles_with_status (rows : List PRow) : List PRow :=
  rows.filter (fun r => is_published (r.is_active.getD .vnone))

/-- A typed row of the `profiles` table, per the `Profile` TypedDict of
`profiles_dao.py` (the Postgres DAO imported by `app.py`). -/
structure Profile where
  id : Nat
  first_name : String
  last_name : String
  gender : String
  birth_year : Option Int
  city : String
  occupation : String
  eyes_color : String
  hair_color : String
  height_cm : Option Int
  smoker : Int
  bio : String
  is_active : Int
  created_at : Option String
  weight_kg : Option Int
  marital_status : String
  zodiac_sign : String
deriving DecidableEq, Repr

/-- A typed row of the `messages` table, per the `Message` TypedDict of
`profiles_dao.py`. -/
structure MessageRow where
  id : Nat
  sender_name : String
  sender_email : String
  sender_message : String
  profile_id : Option Nat
deriving DecidableEq, Repr

/-- The stored state the DAO operates on: the two relational tables. -/
structure DBState where
  profiles : List Profile
  messages : List MessageRow
deriving DecidableEq, Repr

/-- Embeds `get_profile_by_id` of `profiles_dao.py`:
`SELECT * FROM profiles WHERE id = %s` with `fetchone`. -/
def get_profile_by_id (db : List Profile) (profile_id : Nat) : Option Profile :=
  db.find? (fun p => p.id = profile_id)

/-- `CASE WHEN (created_at IS NULL OR created_at = ...) THEN 1 ELSE 0 END`
of the `ORDER BY` in `get_all_profiles`, as a Bool (true = 1). -/
def null_or_empty (c : Option String) : Bool :=
  c = none || c = some ""

/-- The row order realised by `ORDER BY CASE WHEN created_at IS NULL OR
created_at = ... THEN 1 ELSE 0 END, created_at DESC NULLS LAST, id DESC`
in `get_all_profiles` of `profiles_dao.py`: `profLe a b` holds when row
`a` may appear no later than row `b` in the result set. -/
def profLe (a b : Profile) : Bool :=
  match null_or_empty a.created_at, null_or_empty b.created_at with
  | false, true => true
  | true, false => false
  | _, _ =>
    match a.created_at, b.created_at with
    | some x, some y => if x = y then decide (b.id ≤ a.id) else decide (y < x)
    | some _, none => true
    | none, some _ => false
    | none, none => decide (b.id ≤ a.id)

/-- `profLe` as a binary relation on rows. -/
def ProfLeRel : Profile → Profile → Prop :=
  fun a b => profLe a b = true

instance : DecidableRel ProfLeRel := fun a b => decEq (profLe a b) true

/-- Embeds `get_all_profiles` of `profiles_dao.py`: all rows of the
`profiles` table, ordered by the `ORDER BY` clause modelled by
`ProfLeRel` (the SQL engine may use any sorting algorithm; a concrete
sort realises the ordered result set). -/
def get_all_profiles (db : List Profile) : List Profile :=
  db.insertionSort ProfLeRel

/-- First statement of `delete_profile` in `profiles_dao.py`:
`UPDATE messages SET profile_id = NULL WHERE profile_id = %s`. -/
def detach_messages (db : DBState) (profile_id : Nat) : DBState :=
  { db with
    messages := db.messages.map (fun m =>
      if m.profile_id = some profile_id then { m with profile_id := none } else m) }

/-- Second statement of `delete_profile` in `profiles_dao.py`:
`DELETE FROM profiles WHERE id = %s`. -/
def remove_profile_row (db : DBState) (profile_id : Nat) : DBState :=
  { db with profiles := db.profiles.filter (fun p => decide (p.id ≠ profile_id)) }

/-- Embeds `delete_profile` of `profiles_dao.py`: first detach every
referencing message, then delete the profile row. -/
def delete_profile (db : DBState) (profile_id : Nat) : DBState :=
  remove_profile_row (detach_messages db profile_id) profile_id

/-- Embeds `update_profile` of `profiles_dao.py`: the `UPDATE profiles
SET ... WHERE id = %s` statement replaces every listed column of the
matching row; `id` and `created_at` are not in the SET list. -/
structure ProfileParams where
  first_name : String
  last_name : String
  gender : String
  birth_year : Option Int
  city : String
  occupation : String
  eyes_color : String
  hair_color : String
  height_cm : Option Int
  smoker : Int
  bio : String
  is_active : Int
  weight_kg : Option Int
  marital_status : String
  zodiac_sign : String
deriving DecidableEq, Repr

/-- Embeds the `UPDATE profiles SET ...` of `update_profile` applied to
the stored table. -/
def update_profile (db : List Profile) (profile_id : Nat) (p : ProfileParams) : List Profile :=
  db.map (fun r =>
    if r.id = profile_id then
      { r with
        first_name := p.first_name, last_name := p.last_name, gender := p.gender,
        birth_year := p.birth_year, city := p.city, occupation := p.occupation,
        eyes_color := p.eyes_color, hair_color := p.hair_color,
        height_cm := p.height_cm, smoker := p.smoker, bio := p.bio,
        is_active := p.is_active, weight_kg := p.weight_kg,
        marital_status := p.marital_status, zodiac_sign := p.zodiac_sign }
    else r)

/-- Pythons `(form.get(k) or "").strip()` idiom used throughout
`app.py`: a missing value becomes the empty string, then whitespace is
trimmed. -/
def pystrip (o : Option String) : String :=
  py_strip_str (o.getD "")

/-- Embeds `_cb_to_int` of `app.py`: 1 for the truthy checkbox tokens
("on", "1", "true" as the form can supply), otherwise 0. -/
def cb_to_int (v : Option String) : Int :=
  if v = some "on" ∨ v = some "1" ∨ v = some "true" then 1 else 0

/-- Pythons `round` (banker rounding, ties to even) on an exact
rational, as applied by `int(round(height_m * 100))` in
`create_or_update_profile`. -/
def pyRound (q : ℚ) : ℤ :=
  if q - ⌊q⌋ < 1/2 then ⌊q⌋
  else if 1/2 < q - ⌊q⌋ then ⌊q⌋ + 1
  else if ⌊q⌋ % 2 = 0 then ⌊q⌋ else ⌊q⌋ + 1

/-- The POST form of the `create_or_update_profile` route, after the
low-level parsing helpers: `profile_id` is present when the submitted
identifier is a non-empty integer; `height_m` is the result of
`_to_float`; `birth_year`, `height_cm`, `weight_kg` are results of
`_to_int`; the remaining fields are raw form strings (absent =
`none`). -/
structure LifecycleForm where
  profile_id : Option Nat
  action : Option String
  first_name : Option String
  last_name : Option String
  gender : Option String
  birth_year : Option Int
  city : Option String
  occupation : Option String
  eyes_color : Option String
  hair_color : Option String
  zodiac_sign : Option String
  height_m : Option ℚ
  height_cm : Option Int
  weight_kg : Option Int
  marital_status : Option String
  smoker : Option String
  bio : Option String
deriving DecidableEq, Repr

/-- The `if profile_id and action == "delete"` guard opening
`create_or_update_profile`. -/
def is_delete_request (form : LifecycleForm) : Bool :=
  form.profile_id.isSome && form.action = some "delete"

/-- The height computation of `create_or_update_profile`: a parsed
meters value is converted by `int(round(height_m * 100))`, otherwise
the raw centimeters field is used; on an update with no height at all,
the previously stored `height_cm` (when the row exists and the value
is not NULL) is kept. -/
def computed_height_cm (db : List Profile) (form : LifecycleForm) : Option Int :=
  let hc : Option Int :=
    match form.height_m with
    | some m => some (pyRound (m * 100))
    | none => form.height_cm
  match form.profile_id, hc with
  | some pid, none =>
    match get_profile_by_id db pid with
    | some old => old.height_cm
    | none => none
  | _, h => h

/-- The four flash texts collected by the validation block of
`create_or_update_profile`, in source order. -/
def formErrors (form : LifecycleForm) : List String :=
  (if pystrip form.first_name = "" then ["Il nome è obbligatorio."] else [])
  ++ (if py_lower (pystrip form.gender) = "" then ["Il genere è obbligatorio."] else [])
  ++ (if pystrip form.bio = "" then ["La bio è obbligatoria."] else [])
  ++ (match form.height_m with
      | some m => if ¬ (1 ≤ m ∧ m ≤ 5/2) then ["L’altezza deve essere tra 1.00 m e 2.50 m."] else []
      | none => [])

/-- The argument tuple `create_or_update_profile` hands to
`profiles_dao.update_profile` and `profiles_dao.insert_profile`
(everything but `created_at`): trimmed strings, lowercased gender,
computed height, checkbox normalisation, and `is_active = 1`. -/
def formParams (db : List Profile) (form : LifecycleForm) : ProfileParams :=
  { first_name := pystrip form.first_name
    last_name := pystrip form.last_name
    gender := py_lower (pystrip form.gender)
    birth_year := form.birth_year
    city := pystrip form.city
    occupation := pystrip form.occupation
    eyes_color := pystrip form.eyes_color
    hair_color := pystrip form.hair_color
    height_cm := computed_height_cm db form
    smoker := cb_to_int form.smoker
    bio := pystrip form.bio
    is_active := 1
    weight_kg := form.weight_kg
    marital_status := pystrip form.marital_status
    zodiac_sign := pystrip form.zodiac_sign }

/-- The observable outcome of one call to the
`create_or_update_profile` route: which persistence call is issued
with which arguments, or the validation redirect (carrying the flashed
error texts and the identifier kept in the redirect), with no
persistence call at all. -/
inductive LifecycleResult : Type
  | deleted (profile_id : Nat) : LifecycleResult
  | validationFailed (errors : List String) (kept_id : Option Nat) : LifecycleResult
  | updated (profile_id : Nat) (p : ProfileParams) : LifecycleResult
  | inserted (p : ProfileParams) (created_at : String) : LifecycleResult
deriving DecidableEq, Repr

/-- Embeds the `create_or_update_profile` route of `app.py`.  `db` is
the stored profiles table (consulted for the height fallback), `now`
the UTC timestamp string stamped on an insert. -/
def create_or_update_profile (db : List Profile) (form : LifecycleForm) (now : String) :
    LifecycleResult :=
  if is_delete_request form then
    .deleted form.profile_id.iget
  else if formErrors form ≠ [] then
    .validationFailed (formErrors form) form.profile_id
  else
    match form.profile_id with
    | some pid => .updated pid (formParams db form)
    | none => .inserted (formParams db form) now

/-- The height value a `create_or_update_profile` call hands to the
persistence layer, when it persists at all. -/
def persistedHeight : LifecycleResult → Option (Option Int)
  | .updated _ p => some p.height_cm
  | .inserted p _ => some p.height_cm
  | _ => none

/-- Pythons `s or None` on a string: the empty string becomes `None`. -/
def or_none (s : String) : Option String :=
  if s = "" then none else some s

/-- Embeds `_norm_gender_val` of `app.py`: trim and lowercase, then
look the value up in `_GENDER_MAP`. -/
def norm_gender_val (val : Option String) : Option String :=
  let v := py_lower (py_strip_str (val.getD ""))
  if v = "male" ∨ v = "m" ∨ v = "uomo" then some "male"
  else if v = "female" ∨ v = "f" ∨ v = "donna" then some "female"
  else none

/-- Embeds the `AGE_BUCKETS` table of `app.py`. -/
def age_buckets (s : String) : Option (Int × Int) :=
  if s = "25-35" then some (25, 35)
  else if s = "35-45" then some (35, 45)
  else if s = "45-55" then some (45, 55)
  else if s = "55+" then some (55, 150)
  else none

/-- Pythons substring operator `in` on strings. -/
def str_contains (hay pat : String) : Bool :=
  decide (pat.toList <:+: hay.toList)

/-- Embeds `_profile_matches_filters` of `app.py`.  `today_year` stands
for `datetime.date.today().year`; `gender` is the already normalised
canonical filter value, as the `annunci` route computes it. -/
def profile_matches_filters (today_year : Int) (p : Profile)
    (gender : Option String) (age_range : Option String)
    (hair_color : Option String) (eyes_color : Option String)
    (name_q : Option String) (id_q : Option Nat) : Bool :=
  (match id_q with
   | some i => decide (p.id = i)
   | none => true)
  && (if (gender.getD "") = "" then true
      else decide (norm_gender_val (some p.gender) = gender))
  && (if (hair_color.getD "") = "" then true
      else decide (py_lower (py_strip_str p.hair_color) = hair_color.getD ""))
  && (if (eyes_color.getD "") = "" then true
      else decide (py_lower (py_strip_str p.eyes_color) = eyes_color.getD ""))
  && (match age_buckets (age_range.getD "") with
      | some (min_age, max_age) =>
        match p.birth_year with
        | some by_val =>
          decide (min_age ≤ today_year - by_val ∧ today_year - by_val ≤ max_age)
        | none => false
      | none => true)
  && (if (name_q.getD "") = "" then true
      else
        let q := name_q.getD ""
        let fn := py_lower (py_strip_str p.first_name)
        let ln := py_lower (py_strip_str p.last_name)
        str_contains fn q || str_contains ln q
          || str_contains (py_strip_str (fn ++ " " ++ ln)) q)

/-- Embeds the filtering portion of the `annunci` route of `app.py`:
the raw query arguments are trimmed, lowercased and emptied to `None`,
the gender argument is normalised through `_norm_gender_val`, and the
profile set is filtered by `_profile_matches_filters`. -/
def annunci_filter (profiles : List Profile) (today_year : Int)
    (gender_arg age_arg hair_arg eyes_arg : Option String)
    (name_q : Option String) (id_q : Option Nat) : List Profile :=
  let gender_in := or_none (py_lower (pystrip gender_arg))
  let age_range := or_none (pystrip age_arg)
  let hair_color := or_none (py_lower (pystrip hair_arg))
  let eyes_color := or_none (py_lower (pystrip eyes_arg))
  let gender := norm_gender_val gender_in
  profiles.filter (fun p =>
    profile_matches_filters today_year p gender age_range hair_color eyes_color name_q id_q)

/-- The POST form of the `send_message` route (raw strings, absent =
`none`). -/
structure ContactForm where
  profile_id : Option String
  profile_name : Option String
  sender_name : Option String
  sender_phone : Option String
  sender_email : Option String
  sender_job : Option String
  sender_age : Option String
  sender_city : Option String
  sender_message : Option String
  agree_privacy : Option String
deriving DecidableEq, Repr

/-- The validation block of `send_message` in `app.py`, collecting the
flashed error texts in source order. -/
def contact_errors (f : ContactForm) : List String :=
  (if pystrip f.sender_name = "" then ["Il nome è obbligatorio."] else [])
  ++ (if pystrip f.sender_phone = "" then ["Il cellulare è obbligatorio."] else [])
  ++ (if pystrip f.sender_email = "" ∨ ¬ (pystrip f.sender_email).data.contains '@'
      then ["Email non valida."] else [])
  ++ (if pystrip f.sender_age = "" then ["L\x27età è obbligatoria."]
      else if ¬ (pystrip f.sender_age).data.all Char.isDigit
      then ["L\x27età deve essere un numero."] else [])
  ++ (if pystrip f.sender_city = "" then ["La città è obbligatoria."] else [])
  ++ (if (f.agree_privacy.getD "") = "" then ["Devi accettare l\x27informativa privacy."] else [])

/-- An observable step of the `send_message` route: the single email
delivery attempt, the database insert attempt, or a flashed message. -/
inductive ContactEffect : Type
  | emailAttempt : ContactEffect
  | dbInsertAttempt : ContactEffect
  | flashMsg (text : String) (category : String) : ContactEffect
deriving DecidableEq, Repr

/-- The four-way combined flash closing `send_message`, keyed on the
delivery outcome `ok` and the persistence outcome `saved_ok`; `err` is
the delivery error detail. -/
def outcome_flash (ok saved_ok : Bool) (err : String) : ContactEffect :=
  if ok && saved_ok then
    .flashMsg "Messaggio inviato e salvato con successo!" "success"
  else if ok && !saved_ok then
    .flashMsg "Messaggio inviato via email, ma non salvato nel database." "warning"
  else if !ok && saved_ok then
    .flashMsg ("Email non inviata (salvata nel database): " ++ err) "warning"
  else
    .flashMsg ("Errore nell\x27invio email e nel salvataggio: " ++ err) "danger"

/-- Embeds the `send_message` route of `app.py` as its trace of
observable effects.  The outcomes of the two collaborators are oracle
parameters: `email_ok`/`email_err` is the pair `send_email` returns,
`save_ok`/`save_err` tells whether `profiles_dao.insert_message`
raised.  Validation failure flashes the collected errors and stops;
otherwise the email attempt happens, then — unconditionally — the
insert attempt, then the combined outcome flash. -/
def send_message (f : ContactForm) (email_ok : Bool) (email_err : String)
    (save_ok : Bool) (save_err : String) : List ContactEffect :=
  if contact_errors f ≠ [] then
    (contact_errors f).map (fun e => .flashMsg e "danger")
  else
    [.emailAttempt, .dbInsertAttempt]
    ++ (if save_ok then [] else
        [.flashMsg ("Errore nel salvataggio del messaggio nel database: " ++ save_err) "danger"])
    ++ [outcome_flash email_ok save_ok email_err]

/-! ## Theorems -/

/-- The §4.1 truthiness rule as the specification words it: a missing
or None `is_active` is published; a boolean or integer is published
iff truthy; any other value is unpublished exactly when its trimmed
lowercased string form is one of "0", "false", "no", "n". -/
def spec_truthiness_published : Option PyVal → Bool
  | none => true
  | some .vnone => true
  | some (.vbool b) => b
  | some (.vint n) => decide (n ≠ 0)
  | some (.vstr s) =>
    ! decide (py_lower (py_strip_str s) ∈ (["0", "false", "no", "n"] : List String))

theorem is_published_eq_spec (v : Option PyVal) :
    is_published (v.getD .vnone) = spec_truthiness_published v := by
  rcases v with _ | w
  · rfl
  · cases w <;> simp [is_published, spec_truthiness_published, decide_not]

/-- C1: `get_published_profiles_with_status` returns exactly the rows
whose `is_active` value (missing treated as None) evaluates published
under the truthiness rule. -/
theorem published_set_is_truthiness_filter (rows : List PRow) :
    get_published_profiles_with_status rows
      = rows.filter (fun r => spec_truthiness_published r.is_active) := by
  unfold get_published_profiles_with_status
  exact List.filter_congr (fun r _ => is_published_eq_spec r.is_active)

/-- Sample raw rows: a truthy integer, a falsy string, a missing
column. -/
def sampleRows : List PRow :=
  [{ id := 1, is_active := some (.vint 1) },
   { id := 2, is_active := some (.vstr " No ") },
   { id := 3, is_active := none }]

theorem published_set_is_truthiness_filter_witness :
    get_published_profiles_with_status sampleRows
      = sampleRows.filter (fun r => spec_truthiness_published r.is_active) :=
  published_set_is_truthiness_filter sampleRows

theorem mem_ite_singleton {c : Prop} [Decidable c] {a x : String} :
    (x ∈ if c then [a] else []) ↔ c ∧ x = a := by
  split_ifs with h <;> simp [h, eq_comm]

/-- Characterisation of the collected validation messages of
`create_or_update_profile`. -/
theorem mem_formErrors (form : LifecycleForm) (x : String) :
    x ∈ formErrors form ↔
      (pystrip form.first_name = "" ∧ x = "Il nome è obbligatorio.")
      ∨ (py_lower (pystrip form.gender) = "" ∧ x = "Il genere è obbligatorio.")
      ∨ (pystrip form.bio = "" ∧ x = "La bio è obbligatoria.")
      ∨ (∃ m, form.height_m = some m ∧ ¬ (1 ≤ m ∧ m ≤ 5/2)
          ∧ x = "L’altezza deve essere tra 1.00 m e 2.50 m.") := by
  unfold formErrors
  rcases hm : form.height_m with _ | m <;>
    simp [List.mem_append, mem_ite_singleton, hm]

theorem formErrors_ne_nil_of_mem {form : LifecycleForm} {x : String}
    (h : x ∈ formErrors form) : formErrors form ≠ [] :=
  List.ne_nil_of_mem h

/-- C4: a non-delete request with a missing required field never
reaches a persistence call — the result is the validation redirect —
and the flashed list contains each required-field message exactly when
that rule is violated, so all violations are reported together. -/
theorem missing_required_fields_all_reported
    (db : List Profile) (form : LifecycleForm) (now : String)
    (hnd : is_delete_request form = false)
    (hmiss : pystrip form.first_name = "" ∨ py_lower (pystrip form.gender) = ""
      ∨ pystrip form.bio = "") :
    create_or_update_profile db form now
        = .validationFailed (formErrors form) form.profile_id
      ∧ ("Il nome è obbligatorio." ∈ formErrors form ↔ pystrip form.first_name = "")
      ∧ ("Il genere è obbligatorio." ∈ formErrors form ↔ py_lower (pystrip form.gender) = "")
      ∧ ("La bio è obbligatoria." ∈ formErrors form ↔ pystrip form.bio = "") := by
  have hname : "Il nome è obbligatorio." ∈ formErrors form ↔ pystrip form.first_name = "" := by
    rw [mem_formErrors]
    constructor
    · rintro ((⟨h, _⟩) | (⟨_, h⟩) | (⟨_, h⟩) | ⟨m, _, _, h⟩) <;> first | exact h | (exact absurd h (by decide))
    · intro h; exact Or.inl ⟨h, rfl⟩
  have hgender : "Il genere è obbligatorio." ∈ formErrors form
      ↔ py_lower (pystrip form.gender) = "" := by
    rw [mem_formErrors]
    constructor
    · rintro ((⟨_, h⟩) | (⟨h, _⟩) | (⟨_, h⟩) | ⟨m, _, _, h⟩) <;> first | exact h | (exact absurd h (by decide))
    · intro h; exact Or.inr (Or.inl ⟨h, rfl⟩)
  have hbio : "La bio è obbligatoria." ∈ formErrors form ↔ pystrip form.bio = "" := by
    rw [mem_formErrors]
    constructor
    · rintro ((⟨_, h⟩) | (⟨_, h⟩) | (⟨h, _⟩) | ⟨m, _, _, h⟩) <;> first | exact h | (exact absurd h (by decide))
    · intro h; exact Or.inr (Or.inr (Or.inl ⟨h, rfl⟩))
  have hne : formErrors form ≠ [] := by
    rcases hmiss with h | h | h
    · exact formErrors_ne_nil_of_mem (hname.mpr h)
    · exact formErrors_ne_nil_of_mem (hgender.mpr h)
    · exact formErrors_ne_nil_of_mem (hbio.mpr h)
  refine ⟨?_, hname, hgender, hbio⟩
  unfold create_or_update_profile
  rw [hnd]
  simp [hne]

/-- A concrete non-delete form whose first name and bio are blank. -/
def formMissing : LifecycleForm :=
  { profile_id := some 7, action := none, first_name := some "  ", last_name := none
    gender := some "m", birth_year := none, city := none, occupation := none
    eyes_color := none, hair_color := none, zodiac_sign := none, height_m := none
    height_cm := none, weight_kg := none, marital_status := none, smoker := none
    bio := none }

theorem missing_required_fields_all_reported_witness :
    create_or_update_profile [] formMissing "2024-01-01 00:00:00"
        = .validationFailed (formErrors formMissing) (some 7)
      ∧ ("Il nome è obbligatorio." ∈ formErrors formMissing ↔ pystrip formMissing.first_name = "")
      ∧ ("Il genere è obbligatorio." ∈ formErrors formMissing
          ↔ py_lower (pystrip formMissing.gender) = "")
      ∧ ("La bio è obbligatoria." ∈ formErrors formMissing ↔ pystrip formMissing.bio = "") :=
  missing_required_fields_all_reported [] formMissing "2024-01-01 00:00:00" (by decide)
    (Or.inl (by decide))

theorem pyRound_intCast (n : ℤ) : pyRound ((n : ℚ)) = n := by
  simp only [pyRound, Int.floor_intCast, sub_self]
  norm_num

theorem computed_height_cm_of_meters (db : List Profile) (form : LifecycleForm) (m : ℚ)
    (hm : form.height_m = some m) :
    computed_height_cm db form = some (pyRound (m * 100)) := by
  cases h : form.profile_id <;> simp [computed_height_cm, hm, h]

/-- A concrete create form supplying 1.75 meters. -/
def form175 : LifecycleForm :=
  { profile_id := none, action := none, first_name := some "Anna", last_name := none
    gender := some "f", birth_year := none, city := none, occupation := none
    eyes_color := none, hair_color := none, zodiac_sign := none, height_m := some (7/4)
    height_cm := none, weight_kg := none, marital_status := none, smoker := none
    bio := some "ciao" }

/-- A concrete create form supplying 2.51 meters. -/
def form251 : LifecycleForm :=
  { form175 with height_m := some (251/100) }

/-- A concrete create form supplying 0.99 meters. -/
def form099 : LifecycleForm :=
  { form175 with height_m := some (99/100) }

theorem formErrors_form175 : formErrors form175 = [] := by
  have hr : ¬ ¬ (1 ≤ (7/4 : ℚ) ∧ (7/4 : ℚ) ≤ 5/2) := by norm_num
  unfold formErrors
  rw [if_neg (by decide), if_neg (by decide), if_neg (by decide)]
  show (match form175.height_m with
    | some m => if ¬ (1 ≤ m ∧ m ≤ 5/2)
        then ["L’altezza deve essere tra 1.00 m e 2.50 m."] else []
    | none => []) = []
  show (if ¬ (1 ≤ (7/4 : ℚ) ∧ (7/4 : ℚ) ≤ 5/2)
      then ["L’altezza deve essere tra 1.00 m e 2.50 m."] else []) = []
  rw [if_neg hr]

theorem form175_persists_175 :
    persistedHeight (create_or_update_profile [] form175 "t") = some (some 175) := by
  have h175 : pyRound ((7/4 : ℚ) * 100) = 175 := by
    have hc : ((7/4 : ℚ) * 100) = ((175 : ℤ) : ℚ) := by norm_num
    rw [hc, pyRound_intCast]
  unfold create_or_update_profile
  rw [if_neg (by decide)]
  simp only [formErrors_form175, ne_eq, not_true_eq_false, if_neg, if_false]
  show persistedHeight (.inserted (formParams [] form175) "t") = some (some 175)
  simp [persistedHeight, formParams,
    computed_height_cm_of_meters [] form175 (7/4) rfl, h175]

/-- C2: on a non-delete request supplying a parsed meters value `m`,
the height message is flashed exactly when `m` lies outside
[1.00, 2.50]; out of range the call ends in the validation redirect
with no persistence; when the call persists, the stored value is
`round(m * 100)` centimeters.  Concretely, 1.75 m persists as 175 cm
and 2.51 m and 0.99 m fail validation. -/
theorem meters_height_validated_and_rounded
    (db : List Profile) (form : LifecycleForm) (now : String) (m : ℚ)
    (hm : form.height_m = some m) (hnd : is_delete_request form = false) :
    (("L’altezza deve essere tra 1.00 m e 2.50 m." ∈ formErrors form)
        ↔ ¬ (1 ≤ m ∧ m ≤ 5/2))
      ∧ (¬ (1 ≤ m ∧ m ≤ 5/2) →
          create_or_update_profile db form now
            = .validationFailed (formErrors form) form.profile_id)
      ∧ (∀ r, persistedHeight (create_or_update_profile db form now) = some r →
          r = some (pyRound (m * 100)))
      ∧ persistedHeight (create_or_update_profile [] form175 "t") = some (some 175)
      ∧ create_or_update_profile [] form251 "t"
          = .validationFailed ["L’altezza deve essere tra 1.00 m e 2.50 m."] none
      ∧ create_or_update_profile [] form099 "t"
          = .validationFailed ["L’altezza deve essere tra 1.00 m e 2.50 m."] none := by
  have hiff : ("L’altezza deve essere tra 1.00 m e 2.50 m." ∈ formErrors form)
      ↔ ¬ (1 ≤ m ∧ m ≤ 5/2) := by
    rw [mem_formErrors]
    constructor
    · rintro ((⟨_, h⟩) | (⟨_, h⟩) | (⟨_, h⟩) | ⟨m', hm', hr, _⟩)
      · exact absurd h (by decide)
      · exact absurd h (by decide)
      · exact absurd h (by decide)
      · rw [hm] at hm'; cases Option.some.inj hm'; exact hr
    · intro h
      exact Or.inr (Or.inr (Or.inr ⟨m, hm, h, rfl⟩))
  refine ⟨hiff, ?_, ?_, ?_, ?_, ?_⟩
  · intro h
    have hne : formErrors form ≠ [] := formErrors_ne_nil_of_mem (hiff.mpr h)
    unfold create_or_update_profile
    rw [hnd]
    simp [hne]
  · intro r hr
    unfold create_or_update_profile at hr
    rw [hnd] at hr
    by_cases hne : formErrors form = []
    · rw [if_neg (by simp [hne])] at hr
      rw [if_neg (fun hcon => hcon hne)] at hr
      rcases h : form.profile_id with _ | pid <;> rw [h] at hr <;>
        simp [persistedHeight, formParams, computed_height_cm_of_meters db form m hm] at hr <;>
        exact hr.symm
    · rw [if_neg (by simp [hne])] at hr
      rw [if_pos hne] at hr
      simp [persistedHeight] at hr
  · exact form175_persists_175
  · have hfe : formErrors form251 = ["L’altezza deve essere tra 1.00 m e 2.50 m."] := by
      have hr : ¬ (1 ≤ (251/100 : ℚ) ∧ (251/100 : ℚ) ≤ 5/2) := by norm_num
      unfold formErrors
      rw [if_neg (by decide), if_neg (by decide), if_neg (by decide)]
      show (match form251.height_m with
        | some m => if ¬ (1 ≤ m ∧ m ≤ 5/2)
            then ["L’altezza deve essere tra 1.00 m e 2.50 m."] else []
        | none => []) = _
      show (if ¬ (1 ≤ (251/100 : ℚ) ∧ (251/100 : ℚ) ≤ 5/2)
          then ["L’altezza deve essere tra 1.00 m e 2.50 m."] else []) = _
      rw [if_pos hr]
    unfold create_or_update_profile
    rw [if_neg (by decide)]
    rw [hfe]
    rfl
  · have hfe : formErrors form099 = ["L’altezza deve essere tra 1.00 m e 2.50 m."] := by
      have hr : ¬ (1 ≤ (99/100 : ℚ) ∧ (99/100 : ℚ) ≤ 5/2) := by norm_num
      unfold formErrors
      rw [if_neg (by decide), if_neg (by decide), if_neg (by decide)]
      show (match form099.height_m with
        | some m => if ¬ (1 ≤ m ∧ m ≤ 5/2)
            then ["L’altezza deve essere tra 1.00 m e 2.50 m."] else []
        | none => []) = _
      show (if ¬ (1 ≤ (99/100 : ℚ) ∧ (99/100 : ℚ) ≤ 5/2)
          then ["L’altezza deve essere tra 1.00 m e 2.50 m."] else []) = _
      rw [if_pos hr]
    unfold create_or_update_profile
    rw [if_neg (by decide)]
    rw [hfe]
    rfl

theorem meters_height_validated_and_rounded_witness :
    persistedHeight (create_or_update_profile [] form175 "t") = some (some 175)
      ∧ create_or_update_profile [] form251 "t"
          = .validationFailed ["L’altezza deve essere tra 1.00 m e 2.50 m."] none
      ∧ create_or_update_profile [] form099 "t"
          = .validationFailed ["L’altezza deve essere tra 1.00 m e 2.50 m."] none := by
  have h := meters_height_validated_and_rounded [] form175 "t" (7/4) rfl (by decide)
  exact ⟨h.2.2.2.1, h.2.2.2.2.1, h.2.2.2.2.2⟩

/-- Inversion for the update branch of `create_or_update_profile`. -/
theorem updated_result_inv (db : List Profile) (form : LifecycleForm) (now : String)
    (pid : Nat) (p : ProfileParams)
    (h : create_or_update_profile db form now = .updated pid p) :
    form.profile_id = some pid ∧ p = formParams db form := by
  unfold create_or_update_profile at h
  by_cases h1 : is_delete_request form = true
  · rw [if_pos h1] at h
    exact absurd h (by simp)
  · rw [if_neg h1] at h
    by_cases h2 : formErrors form ≠ []
    · rw [if_pos h2] at h
      exact absurd h (by simp)
    · rw [if_neg h2] at h
      rcases hp : form.profile_id with _ | pid' <;> rw [hp] at h
      · exact absurd h (by simp)
      · injection h with h3 h4
        subst h3
        exact ⟨rfl, h4.symm⟩

theorem update_profile_preserves_created_at (db : List Profile) (pid : Nat)
    (p : ProfileParams) :
    (update_profile db pid p).map Profile.created_at = db.map Profile.created_at := by
  unfold update_profile
  rw [List.map_map]
  apply List.map_congr_left
  intro r _
  by_cases h : r.id = pid <;> simp [h]

theorem update_profile_preserves_id (db : List Profile) (pid : Nat) (p : ProfileParams) :
    (update_profile db pid p).map Profile.id = db.map Profile.id := by
  unfold update_profile
  rw [List.map_map]
  apply List.map_congr_left
  intro r _
  by_cases h : r.id = pid <;> simp [h]

/-- C5: a successful update replaces every supplied field with the
form value, falls back to the previously stored `height_cm` when no
height was supplied at all, and never touches `created_at` (or `id`)
of any stored row. -/
theorem update_replaces_fields_preserves_created_at
    (db : List Profile) (form : LifecycleForm) (now : String) (pid : Nat) (p : ProfileParams)
    (h : create_or_update_profile db form now = .updated pid p) :
    (form.height_m = none → form.height_cm = none →
      ∀ old, get_profile_by_id db pid = some old → p.height_cm = old.height_cm)
    ∧ p.first_name = pystrip form.first_name
    ∧ p.last_name = pystrip form.last_name
    ∧ p.gender = py_lower (pystrip form.gender)
    ∧ p.birth_year = form.birth_year
    ∧ p.city = pystrip form.city
    ∧ p.occupation = pystrip form.occupation
    ∧ p.eyes_color = pystrip form.eyes_color
    ∧ p.hair_color = pystrip form.hair_color
    ∧ p.smoker = cb_to_int form.smoker
    ∧ p.bio = pystrip form.bio
    ∧ p.weight_kg = form.weight_kg
    ∧ p.marital_status = pystrip form.marital_status
    ∧ p.zodiac_sign = pystrip form.zodiac_sign
    ∧ (update_profile db pid p).map Profile.created_at = db.map Profile.created_at
    ∧ (update_profile db pid p).map Profile.id = db.map Profile.id := by
  obtain ⟨hp, rfl⟩ := updated_result_inv db form now pid p h
  refine ⟨?_, rfl, rfl, rfl, rfl, rfl, rfl, rfl, rfl, rfl, rfl, rfl, rfl, rfl,
    update_profile_preserves_created_at db pid _, update_profile_preserves_id db pid _⟩
  intro hm hc old hold
  show computed_height_cm db form = old.height_cm
  simp [computed_height_cm, hm, hc, hp, hold]

/-- A stored profile with height 180 cm. -/
def oldProfile : Profile :=
  { id := 1, first_name := "Bruno", last_name := "", gender := "m", birth_year := none
    city := "", occupation := "", eyes_color := "", hair_color := "", height_cm := some 180
    smoker := 0, bio := "b", is_active := 1, created_at := some "2024-01-01 00:00:00"
    weight_kg := none, marital_status := "", zodiac_sign := "" }

/-- An update form for profile 1 supplying no height at all. -/
def updForm : LifecycleForm :=
  { profile_id := some 1, action := none, first_name := some "Bruno", last_name := none
    gender := some "m", birth_year := none, city := none, occupation := none
    eyes_color := none, hair_color := none, zodiac_sign := none, height_m := none
    height_cm := none, weight_kg := none, marital_status := none, smoker := none
    bio := some "b" }

theorem update_replaces_fields_preserves_created_at_witness :
    (formParams [oldProfile] updForm).height_cm = oldProfile.height_cm
      ∧ (update_profile [oldProfile] 1 (formParams [oldProfile] updForm)).map Profile.created_at
          = [oldProfile].map Profile.created_at := by
  have h := update_replaces_fields_preserves_created_at [oldProfile] updForm "t" 1
    (formParams [oldProfile] updForm) rfl
  obtain ⟨hfb, -, -, -, -, -, -, -, -, -, -, -, -, -, hca, -⟩ := h
  exact ⟨hfb rfl rfl oldProfile rfl, hca⟩

theorem pyRound_bounds (lo hi : ℤ) (x : ℚ) (h1 : (lo : ℚ) ≤ x) (h2 : x ≤ (hi : ℚ)) :
    lo ≤ pyRound x ∧ pyRound x ≤ hi := by
  have hf1 : lo ≤ ⌊x⌋ := Int.le_floor.mpr h1
  have hf2 : ⌊x⌋ ≤ hi := by
    calc ⌊x⌋ ≤ ⌊(hi : ℚ)⌋ := Int.floor_le_floor h2
    _ = hi := Int.floor_intCast hi
  have hfl : (⌊x⌋ : ℚ) ≤ x := Int.floor_le x
  unfold pyRound
  split_ifs with ha hb hc
  · exact ⟨hf1, hf2⟩
  · refine ⟨by omega, ?_⟩
    have hflt : (⌊x⌋ : ℚ) < (hi : ℚ) := by linarith
    have : ⌊x⌋ < hi := by exact_mod_cast hflt
    omega
  · exact ⟨hf1, hf2⟩
  · refine ⟨by omega, ?_⟩
    push_neg at ha
    have hflt : (⌊x⌋ : ℚ) < (hi : ℚ) := by linarith
    have : ⌊x⌋ < hi := by exact_mod_cast hflt
    omega

/-- A concrete create form supplying a raw 999 centimeters value and
no meters value. -/
def form999cm : LifecycleForm :=
  { form175 with height_m := none, height_cm := some 999 }

/-- C6 counterexample: the raw centimeters path is not range-checked,
so a validated create persists `height_cm = 999`, far outside
[100, 250]. -/
theorem raw_centimeters_escape_range_check :
    persistedHeight (create_or_update_profile [] form999cm "t") = some (some 999)
      ∧ ¬ ((100 : ℤ) ≤ 999 ∧ (999 : ℤ) ≤ 250) :=
  ⟨rfl, by decide⟩

/-- C6 amended: when the height was supplied as decimal meters, every
persisted `height_cm` lies in [100, 250]; the raw centimeters path is
not range-validated. -/
theorem meters_supplied_height_in_range
    (db : List Profile) (form : LifecycleForm) (now : String) (m : ℚ)
    (hm : form.height_m = some m) :
    ∀ r, persistedHeight (create_or_update_profile db form now) = some r →
      ∃ v, r = some v ∧ 100 ≤ v ∧ v ≤ 250 := by
  intro r hr
  unfold create_or_update_profile at hr
  by_cases h1 : is_delete_request form = true
  · rw [if_pos h1] at hr
    simp [persistedHeight] at hr
  · rw [if_neg h1] at hr
    by_cases h2 : formErrors form ≠ []
    · rw [if_pos h2] at hr
      simp [persistedHeight] at hr
    · rw [if_neg h2] at hr
      push_neg at h2
      have hnotmem : "L’altezza deve essere tra 1.00 m e 2.50 m." ∉ formErrors form := by
        rw [h2]; simp
      have hrange : 1 ≤ m ∧ m ≤ 5/2 := by
        by_contra hcon
        exact hnotmem ((mem_formErrors form _).mpr (Or.inr (Or.inr (Or.inr ⟨m, hm, hcon, rfl⟩))))
      have hlo : ((100 : ℤ) : ℚ) ≤ m * 100 := by
        have h := mul_le_mul_of_nonneg_right hrange.1 (by norm_num : (0 : ℚ) ≤ 100)
        push_cast
        linarith
      have hhi : m * 100 ≤ ((250 : ℤ) : ℚ) := by
        have h := mul_le_mul_of_nonneg_right hrange.2 (by norm_num : (0 : ℚ) ≤ 100)
        push_cast
        linarith
      have hb := pyRound_bounds 100 250 (m * 100) hlo hhi
      refine ⟨pyRound (m * 100), ?_, hb.1, hb.2⟩
      rcases hp : form.profile_id with _ | pid <;> rw [hp] at hr <;>
        simp [persistedHeight, formParams, computed_height_cm_of_meters db form m hm] at hr <;>
        exact hr.symm

theorem meters_supplied_height_in_range_witness :
    (100 : ℤ) ≤ 175 ∧ (175 : ℤ) ≤ 250 := by
  obtain ⟨v, hv, h1, h2⟩ :=
    meters_supplied_height_in_range [] form175 "t" (7/4) rfl (some 175) form175_persists_175
  cases Option.some.inj hv
  exact ⟨h1, h2⟩

/-- Inversion for the insert branch of `create_or_update_profile`. -/
theorem inserted_result_inv (db : List Profile) (form : LifecycleForm) (now : String)
    (p : ProfileParams) (c : String)
    (h : create_or_update_profile db form now = .inserted p c) :
    p = formParams db form := by
  unfold create_or_update_profile at h
  by_cases h1 : is_delete_request form = true
  · rw [if_pos h1] at h
    exact absurd h (by simp)
  · rw [if_neg h1] at h
    by_cases h2 : formErrors form ≠ []
    · rw [if_pos h2] at h
      exact absurd h (by simp)
    · rw [if_neg h2] at h
      rcases hp : form.profile_id with _ | pid' <;> rw [hp] at h
      · injection h with h3 h4
        exact h3.symm
      · exact absurd h (by simp)

/-- C10: every successful non-delete call writes `is_active = 1` —
updates included — so the updated stored row is published under the
truthiness rule and the lifecycle endpoint can never unpublish a
profile. -/
theorem lifecycle_always_republishes (db : List Profile) (form : LifecycleForm) (now : String) :
    (∀ pid p, create_or_update_profile db form now = .updated pid p →
      p.is_active = 1
        ∧ ∀ r ∈ update_profile db pid p, r.id = pid →
            r.is_active = 1 ∧ is_published (.vint r.is_active) = true)
      ∧ (∀ p c, create_or_update_profile db form now = .inserted p c → p.is_active = 1) := by
  constructor
  · intro pid p h
    obtain ⟨-, rfl⟩ := updated_result_inv db form now pid p h
    refine ⟨rfl, ?_⟩
    intro r hr hrid
    unfold update_profile at hr
    obtain ⟨r0, -, hr0⟩ := List.mem_map.mp hr
    by_cases hid : r0.id = pid
    · rw [if_pos hid] at hr0
      rw [← hr0]
      exact ⟨rfl, rfl⟩
    · rw [if_neg hid] at hr0
      rw [← hr0] at hrid
      exact absurd hrid hid
  · intro p c h
    rw [inserted_result_inv db form now p c h]
    rfl

theorem lifecycle_always_republishes_witness :
    (formParams [] updForm).is_active = 1 ∧ (formParams [] form999cm).is_active = 1 :=
  ⟨((lifecycle_always_republishes [] updForm "t").1 1 (formParams [] updForm) rfl).1,
    (lifecycle_always_republishes [] form999cm "t").2 (formParams [] form999cm) "t" rfl⟩

/-- C3: after `delete_profile`, the profile is gone from retrieval,
no message references it any more, every message row survives (same
ids, in order), and a message that did not reference it is kept
entirely unchanged. -/
theorem delete_detaches_then_removes (db : DBState) (pid : Nat) :
    get_profile_by_id (delete_profile db pid).profiles pid = none
      ∧ (delete_profile db pid).messages.map MessageRow.id = db.messages.map MessageRow.id
      ∧ (∀ m ∈ (delete_profile db pid).messages, m.profile_id ≠ some pid)
      ∧ (∀ m ∈ db.messages, m.profile_id ≠ some pid →
          m ∈ (delete_profile db pid).messages) := by
  refine ⟨?_, ?_, ?_, ?_⟩
  · apply List.find?_eq_none.mpr
    intro x hx
    have hx2 := (List.mem_filter.mp hx).2
    simp at hx2
    simp [hx2]
  · show (db.messages.map _).map MessageRow.id = db.messages.map MessageRow.id
    rw [List.map_map]
    apply List.map_congr_left
    intro m _
    by_cases h : m.profile_id = some pid <;> simp [h]
  · intro m hm
    obtain ⟨m0, -, hm0⟩ := List.mem_map.mp hm
    by_cases h : m0.profile_id = some pid
    · rw [if_pos h] at hm0
      rw [← hm0]
      simp
    · rw [if_neg h] at hm0
      rw [← hm0]
      exact h
  · intro m hm hnp
    show m ∈ db.messages.map _
    exact List.mem_map.mpr ⟨m, hm, by rw [if_neg hnp]⟩

/-- A message referencing profile 1. -/
def msgRef : MessageRow :=
  { id := 1, sender_name := "s", sender_email := "e", sender_message := "m"
    profile_id := some 1 }

/-- A message with no profile reference. -/
def msgNoRef : MessageRow :=
  { id := 2, sender_name := "s2", sender_email := "e2", sender_message := "m2"
    profile_id := none }

/-- A stored state with one profile and two messages. -/
def sampleDB : DBState :=
  { profiles := [oldProfile], messages := [msgRef, msgNoRef] }

theorem delete_detaches_then_removes_witness :
    get_profile_by_id (delete_profile sampleDB 1).profiles 1 = none
      ∧ msgNoRef ∈ (delete_profile sampleDB 1).messages := by
  have h := delete_detaches_then_removes sampleDB 1
  exact ⟨h.1, h.2.2.2 msgNoRef (by decide) (by decide)⟩

/-- A stored profile whose gender column holds the raw value "M". -/
def profileM : Profile :=
  { oldProfile with gender := "M" }

/-- C7 counterexample: filtering the listing with the unmapped gender
value "boh" does not exclude anything — the stored profile is
returned, not the empty set the claim requires. -/
theorem gender_unmapped_matches_all_counterexample :
    norm_gender_val (some "boh") = none
      ∧ annunci_filter [profileM] 2024 (some "boh") none none none none none = [profileM]
      ∧ ([profileM] : List Profile) ≠ [] :=
  ⟨by decide, by decide, by decide⟩

/-- C7 amended: the three synonyms "uomo", "m", "male" normalise to
the same canonical value and produce identical listing results, the
stored gender (for example "M") is normalised the same way before
comparison, and a gender value outside the synonym mapping imposes no
gender constraint at all (every profile passes it), rather than
matching none. -/
theorem gender_synonyms_equivalent
    (profiles : List Profile) (today_year : Int)
    (age_arg hair_arg eyes_arg : Option String)
    (name_q : Option String) (id_q : Option Nat) :
    annunci_filter profiles today_year (some "uomo") age_arg hair_arg eyes_arg name_q id_q
        = annunci_filter profiles today_year (some "m") age_arg hair_arg eyes_arg name_q id_q
      ∧ annunci_filter profiles today_year (some "m") age_arg hair_arg eyes_arg name_q id_q
        = annunci_filter profiles today_year (some "male") age_arg hair_arg eyes_arg name_q id_q
      ∧ norm_gender_val (some "M") = some "male"
      ∧ annunci_filter [profileM] 2024 (some "uomo") none none none none none = [profileM]
      ∧ (∀ g, norm_gender_val (or_none (py_lower (pystrip g))) = none →
          annunci_filter profiles today_year g age_arg hair_arg eyes_arg name_q id_q
            = annunci_filter profiles today_year none age_arg hair_arg eyes_arg name_q id_q) := by
  have huomo : norm_gender_val (or_none (py_lower (pystrip (some "uomo")))) = some "male" := by
    decide
  have hm : norm_gender_val (or_none (py_lower (pystrip (some "m")))) = some "male" := by
    decide
  have hmale : norm_gender_val (or_none (py_lower (pystrip (some "male")))) = some "male" := by
    decide
  have hnone : norm_gender_val (or_none (py_lower (pystrip (none : Option String)))) = none := by
    decide
  refine ⟨?_, ?_, by decide, by decide, ?_⟩
  · simp only [annunci_filter, huomo, hm]
  · simp only [annunci_filter, hm, hmale]
  · intro g hg
    simp only [annunci_filter, hg, hnone]

theorem gender_synonyms_equivalent_witness :
    annunci_filter [profileM] 2024 (some "uomo") none none none none none
        = annunci_filter [profileM] 2024 (some "m") none none none none none
      ∧ norm_gender_val (some "M") = some "male" := by
  have h := gender_synonyms_equivalent [profileM] 2024 none none none none none
  exact ⟨h.1, h.2.2.1⟩

theorem append_ne_of_getElem {l1 l2 r1 r2 : List Char} {i : Nat} {c1 c2 : Char}
    (h1 : l1[i]? = some c1) (h2 : l2[i]? = some c2) (hc : c1 ≠ c2) :
    l1 ++ r1 ≠ l2 ++ r2 := by
  intro h
  have hlt1 : i < l1.length := by
    by_contra hge
    rw [List.getElem?_eq_none (Nat.le_of_not_lt hge)] at h1
    exact Option.noConfusion h1
  have hlt2 : i < l2.length := by
    by_contra hge
    rw [List.getElem?_eq_none (Nat.le_of_not_lt hge)] at h2
    exact Option.noConfusion h2
  have e1 : (l1 ++ r1)[i]? = some c1 := by rw [List.getElem?_append_left hlt1]; exact h1
  have e2 : (l2 ++ r2)[i]? = some c2 := by rw [List.getElem?_append_left hlt2]; exact h2
  rw [h, e2] at e1
  exact hc (Option.some.inj e1).symm

theorem string_append_ne (a b e1 e2 : String) (i : Nat) (c1 c2 : Char)
    (h1 : a.data[i]? = some c1) (h2 : b.data[i]? = some c2) (hc : c1 ≠ c2) :
    a ++ e1 ≠ b ++ e2 := by
  intro h
  have hd := congrArg String.data h
  rw [String.data_append, String.data_append] at hd
  exact append_ne_of_getElem h1 h2 hc hd

theorem ne_const_append (s t e : String) (i : Nat) (c1 c2 : Char)
    (h1 : s.data[i]? = some c1) (h2 : t.data[i]? = some c2) (hc : c1 ≠ c2) :
    s ≠ t ++ e := by
  intro h
  have hd := congrArg String.data h
  rw [String.data_append] at hd
  have hlt2 : i < t.data.length := by
    by_contra hge
    rw [List.getElem?_eq_none (Nat.le_of_not_lt hge)] at h2
    exact Option.noConfusion h2
  rw [hd, List.getElem?_append_left hlt2, h2] at h1
  exact hc (Option.some.inj h1).symm

/-- C9: once validation passes, the insert attempt is in the trace for
every delivery outcome — a delivery failure never prevents it — the
combined outcome flash is always emitted, and the four combinations
of (delivery, persistence) outcomes carry four pairwise distinct
user-facing texts, whatever the delivery error detail. -/
theorem contact_flow_independent_and_distinct
    (f : ContactForm) (email_err save_err : String)
    (hv : contact_errors f = []) :
    (∀ email_ok save_ok : Bool,
        ContactEffect.dbInsertAttempt ∈ send_message f email_ok email_err save_ok save_err)
      ∧ (∀ email_ok save_ok : Bool,
          outcome_flash email_ok save_ok email_err
            ∈ send_message f email_ok email_err save_ok save_err)
      ∧ outcome_flash true true email_err ≠ outcome_flash true false email_err
      ∧ outcome_flash true true email_err ≠ outcome_flash false true email_err
      ∧ outcome_flash true true email_err ≠ outcome_flash false false email_err
      ∧ outcome_flash true false email_err ≠ outcome_flash false true email_err
      ∧ outcome_flash true false email_err ≠ outcome_flash false false email_err
      ∧ outcome_flash false true email_err ≠ outcome_flash false false email_err := by
  refine ⟨?_, ?_, ?_, ?_, ?_, ?_, ?_, ?_⟩
  · intro email_ok save_ok
    unfold send_message
    rw [if_neg (fun hcon => hcon hv)]
    simp
  · intro email_ok save_ok
    unfold send_message
    rw [if_neg (fun hcon => hcon hv)]
    simp
  · show ContactEffect.flashMsg "Messaggio inviato e salvato con successo!" "success"
        ≠ ContactEffect.flashMsg "Messaggio inviato via email, ma non salvato nel database."
            "warning"
    decide
  · show ContactEffect.flashMsg "Messaggio inviato e salvato con successo!" "success"
        ≠ ContactEffect.flashMsg ("Email non inviata (salvata nel database): " ++ email_err)
            "warning"
    intro h
    injection h with ht hcat
    exact ne_const_append _ _ email_err 0 'M' 'E' (by decide) (by decide) (by decide) ht
  · show ContactEffect.flashMsg "Messaggio inviato e salvato con successo!" "success"
        ≠ ContactEffect.flashMsg ("Errore nell\x27invio email e nel salvataggio: " ++ email_err)
            "danger"
    intro h
    injection h with ht hcat
    exact ne_const_append _ _ email_err 0 'M' 'E' (by decide) (by decide) (by decide) ht
  · show ContactEffect.flashMsg "Messaggio inviato via email, ma non salvato nel database."
          "warning"
        ≠ ContactEffect.flashMsg ("Email non inviata (salvata nel database): " ++ email_err)
            "warning"
    intro h
    injection h with ht hcat
    exact ne_const_append _ _ email_err 0 'M' 'E' (by decide) (by decide) (by decide) ht
  · show ContactEffect.flashMsg "Messaggio inviato via email, ma non salvato nel database."
          "warning"
        ≠ ContactEffect.flashMsg ("Errore nell\x27invio email e nel salvataggio: " ++ email_err)
            "danger"
    intro h
    injection h with ht hcat
    exact ne_const_append _ _ email_err 0 'M' 'E' (by decide) (by decide) (by decide) ht
  · show ContactEffect.flashMsg ("Email non inviata (salvata nel database): " ++ email_err)
          "warning"
        ≠ ContactEffect.flashMsg ("Errore nell\x27invio email e nel salvataggio: " ++ email_err)
            "danger"
    intro h
    injection h with ht hcat
    exact string_append_ne _ _ email_err email_err 1 'm' 'r'
      (by decide) (by decide) (by decide) ht

/-- A contact form passing every validation rule. -/
def validContact : ContactForm :=
  { profile_id := none, profile_name := none, sender_name := some "Mario"
    sender_phone := some "333", sender_email := some "a@b.c", sender_job := none
    sender_age := some "40", sender_city := some "Cuneo", sender_message := none
    agree_privacy := some "on" }

theorem contact_flow_independent_and_distinct_witness :
    ContactEffect.dbInsertAttempt ∈ send_message validContact false "boom" true "dberr"
      ∧ outcome_flash false true "boom" ∈ send_message validContact false "boom" true "dberr"
      ∧ outcome_flash false true "boom" ≠ outcome_flash false false "boom" := by
  have h := contact_flow_independent_and_distinct validContact "boom" "dberr" (by decide)
  exact ⟨h.1 false true, h.2.1 false true, h.2.2.2.2.2.2.2⟩

/-- The sort key realised by the `ORDER BY` clause, packaged into a
lexicographic linear order: the null-or-empty flag first (0 before 1),
then `created_at` descending with NULL last, then `id` descending. -/
def profKey (a : Profile) : Bool ×ₗ (WithTop (OrderDual String) ×ₗ OrderDual Nat) :=
  toLex (null_or_empty a.created_at,
    toLex ((match a.created_at with
            | some s => ((OrderDual.toDual s : OrderDual String) : WithTop (OrderDual String))
            | none => (⊤ : WithTop (OrderDual String))),
           OrderDual.toDual a.id))

theorem profLe_iff_key (a b : Profile) : profLe a b = true ↔ profKey a ≤ profKey b := by
  have hbool1 : (false : Bool) < true := by decide
  have hbool2 : ¬ ((true : Bool) < false) := by decide
  unfold profLe profKey
  rcases ha : a.created_at with _ | x <;> rcases hb : b.created_at with _ | y
  · simp [null_or_empty, Prod.Lex.le_iff, OrderDual.toDual_le_toDual, lt_irrefl]
  · by_cases hy : y = "" <;>
      simp [null_or_empty, hy, Prod.Lex.le_iff, hbool2, lt_irrefl, not_top_lt,
        OrderDual.toDual_le_toDual]
  · by_cases hx : x = "" <;>
      simp [null_or_empty, hx, Prod.Lex.le_iff, hbool1, lt_irrefl, WithTop.coe_lt_top,
        OrderDual.toDual_le_toDual]
  · by_cases hx : x = "" <;> by_cases hy : y = ""
    · subst hx; subst hy
      simp [null_or_empty, Prod.Lex.le_iff, lt_irrefl, WithTop.coe_lt_coe,
        OrderDual.toDual_le_toDual, OrderDual.toDual_lt_toDual]
    · simp [null_or_empty, hx, hy, Prod.Lex.le_iff, hbool2, lt_irrefl]
    · simp [null_or_empty, hx, hy, Prod.Lex.le_iff, hbool1, lt_irrefl]
    · by_cases hxy : x = y
      · subst hxy
        simp [null_or_empty, hx, Prod.Lex.le_iff, lt_irrefl, WithTop.coe_lt_coe,
          OrderDual.toDual_le_toDual, OrderDual.toDual_lt_toDual]
      · simp [null_or_empty, hx, hy, hxy, Prod.Lex.le_iff, lt_irrefl, WithTop.coe_lt_coe,
          WithTop.coe_eq_coe, OrderDual.toDual_le_toDual, OrderDual.toDual_lt_toDual,
          OrderDual.toDual_inj, Ne.symm hxy]

instance : IsTotal Profile ProfLeRel :=
  ⟨fun a b => by
    rcases le_total (profKey a) (profKey b) with h | h
    · exact Or.inl ((profLe_iff_key a b).mpr h)
    · exact Or.inr ((profLe_iff_key b a).mpr h)⟩

instance : IsTrans Profile ProfLeRel :=
  ⟨fun a b c hab hbc => (profLe_iff_key a c).mpr
    (le_trans ((profLe_iff_key a b).mp hab) ((profLe_iff_key b c).mp hbc))⟩

/-- The created-at value with NULL read as the empty string. -/
def caVal (a : Profile) : String := a.created_at.getD ""

/-- The ordering the claim describes: dated rows first by `created_at`
descending, all null-or-empty rows after them treated as one class,
ties broken by `id` descending. -/
def c8_claimed_order (a b : Profile) : Bool :=
  match null_or_empty a.created_at, null_or_empty b.created_at with
  | false, true => true
  | true, false => false
  | false, false =>
    decide (caVal b < caVal a) || (decide (caVal b = caVal a) && decide (b.id ≤ a.id))
  | true, true => decide (b.id ≤ a.id)

/-- The ordering the code actually realises, in the claim words
amended at one point: within the null-or-empty tail an empty-string
row precedes a NULL row (`created_at DESC NULLS LAST` still compares
them), and only rows with the same `created_at` status tie-break by
`id` descending. -/
def c8_amended_order (a b : Profile) : Bool :=
  match null_or_empty a.created_at, null_or_empty b.created_at with
  | false, true => true
  | true, false => false
  | false, false =>
    decide (caVal b < caVal a) || (decide (caVal b = caVal a) && decide (b.id ≤ a.id))
  | true, true =>
    decide (a.created_at = some "" ∧ b.created_at = none)
      || (decide (a.created_at = b.created_at) && decide (b.id ≤ a.id))

theorem amended_order_eq_profLe (a b : Profile) : c8_amended_order a b = profLe a b := by
  unfold c8_amended_order profLe caVal
  rcases ha : a.created_at with _ | x <;> rcases hb : b.created_at with _ | y
  · simp [null_or_empty]
  · by_cases hy : y = "" <;> simp [null_or_empty, hy]
  · by_cases hx : x = "" <;> simp [null_or_empty, hx]
  · by_cases hx : x = "" <;> by_cases hy : y = ""
    · subst hx; subst hy
      simp [null_or_empty]
    · simp [null_or_empty, hx, hy]
    · simp [null_or_empty, hx, hy]
    · by_cases hxy : x = y
      · subst hxy
        simp [null_or_empty, hx, lt_irrefl]
      · simp [null_or_empty, hx, hy, hxy, Ne.symm hxy]

/-- A stored profile with empty-string `created_at` and the smaller id. -/
def pEmptyCreated : Profile :=
  { oldProfile with id := 1, created_at := some "" }

/-- A stored profile with NULL `created_at` and the larger id. -/
def pNullCreated : Profile :=
  { oldProfile with id := 2, created_at := none }

/-- C8 counterexample: among the null-or-empty tail the code puts the
empty-string row before the NULL row even though the NULL row has the
larger id, so the result is not sorted by the claimed
id-descending tie-break. -/
theorem ordering_tail_tiebreak_counterexample :
    get_all_profiles [pNullCreated, pEmptyCreated] = [pEmptyCreated, pNullCreated]
      ∧ c8_claimed_order pEmptyCreated pNullCreated = false
      ∧ ¬ (get_all_profiles [pNullCreated, pEmptyCreated]).Pairwise
            (fun a b => c8_claimed_order a b = true) := by
  have h1 : get_all_profiles [pNullCreated, pEmptyCreated] = [pEmptyCreated, pNullCreated] := by
    decide
  refine ⟨h1, by decide, ?_⟩
  rw [h1]
  intro h
  have h2 := (List.pairwise_cons.mp h).1 pNullCreated (by simp)
  exact absurd h2 (by decide)

/-- C8 amended: the listing retrieval returns a permutation of the
stored rows sorted by `created_at` descending with the null-or-empty
rows last, an empty-string row before a NULL row inside that tail, and
an id-descending tie-break between rows of equal `created_at`. -/
theorem profiles_ordering_amended (db : List Profile) :
    List.Perm (get_all_profiles db) db
      ∧ (get_all_profiles db).Pairwise (fun a b => c8_amended_order a b = true) := by
  refine ⟨List.perm_insertionSort ProfLeRel db, ?_⟩
  have hs : (get_all_profiles db).Pairwise ProfLeRel :=
    List.sorted_insertionSort ProfLeRel db
  exact hs.imp (fun h => by rw [amended_order_eq_profLe]; exact h)

theorem profiles_ordering_amended_witness :
    List.Perm (get_all_profiles [pNullCreated, pEmptyCreated]) [pNullCreated, pEmptyCreated]
      ∧ (get_all_profiles [pNullCreated, pEmptyCreated]).Pairwise
          (fun a b => c8_amended_order a b = true) :=
  profiles_ordering_amended [pNullCreated, pEmptyCreated]

end Granda
